import Mathlib

/-!
Shallow embedding of `src/Umi/core_engine/suggestion_pipeline.py`
(class `SuggestionPipeline`), the orchestrator of the UmiGold
suggestion pipeline: its task model, stage executor (`_process_task`),
ingestion (`ingest_code_context`), and the priority queue it uses
(Python `queue.PriorityQueue`, backed by `heapq` on `(priority, task)`
tuples).

Collaborators (context analyzer, refactor engine, style adapter,
telemetry store) are external black boxes per the spec; they are
modelled as an abstract record of fallible functions.  The telemetry
store's `record_interaction` catches all of its own exceptions
(`telemetry_db.py`), so it never raises into the pipeline; it is
modelled as pure event recording.
-/

namespace UmiGold

/-- The five pipeline stages, `PipelineStage` in the source
(`suggestion_pipeline.py` lines 18-23), enumerated 1..5. -/
inductive PipelineStage where
  | CONTEXT_ANALYSIS
  | VULNERABILITY_SCAN
  | OPTIMIZATION_GEN
  | STYLE_ADAPTATION
  | TELEMETRY_HOOK
deriving DecidableEq

/-- The `Enum` numeric value of each stage (1..5 in declaration order). -/
def stageValue : PipelineStage → Nat
  | .CONTEXT_ANALYSIS => 1
  | .VULNERABILITY_SCAN => 2
  | .OPTIMIZATION_GEN => 3
  | .STYLE_ADAPTATION => 4
  | .TELEMETRY_HOOK => 5

/-- The `.name` attribute of each stage, used for the
`ERR_<stage-name>` telemetry id (source line 113). -/
def stageName : PipelineStage → String
  | .CONTEXT_ANALYSIS => "CONTEXT_ANALYSIS"
  | .VULNERABILITY_SCAN => "VULNERABILITY_SCAN"
  | .OPTIMIZATION_GEN => "OPTIMIZATION_GEN"
  | .STYLE_ADAPTATION => "STYLE_ADAPTATION"
  | .TELEMETRY_HOOK => "TELEMETRY_HOOK"

/-- The stage written into `task['stage']` by each successful
non-terminal branch of `_process_task` (lines 66, 73, 81, 89).
`TELEMETRY_HOOK` never executes such an assignment (the terminal
branch returns, line 100); its value here is never used. -/
def nextStage : PipelineStage → PipelineStage
  | .CONTEXT_ANALYSIS => .VULNERABILITY_SCAN
  | .VULNERABILITY_SCAN => .OPTIMIZATION_GEN
  | .OPTIMIZATION_GEN => .STYLE_ADAPTATION
  | .STYLE_ADAPTATION => .TELEMETRY_HOOK
  | .TELEMETRY_HOOK => .TELEMETRY_HOOK

/-- One optimization record produced by the refactor engine
(`{id, suggested_code, context_embedding, impact_score}` per the
collaborator contract); the pipeline reads `id`, `suggested_code`
and `context_embedding` (lines 86, 95, 96). `context_embedding`
is optional because the terminal stage reads it with
`suggestion.get('context_embedding', b'')` (line 96). -/
structure Optimization where
  id : String
  suggested_code : String
  context_embedding : Option (List Nat)
  impact_score : Int
deriving DecidableEq

/-- An adapted suggestion `{**opt, 'adapted_code': adapted_code}`
built by the `STYLE_ADAPTATION` branch (line 87). -/
structure AdaptedSuggestion where
  opt : Optimization
  adapted_code : String
deriving DecidableEq

/-- The task dict created by `ingest_code_context` (lines 38-44) and
mutated in place by `_process_task`.  A field is `Option` when the
corresponding dict key may be absent.  `priority` models the dict
key `'priority'`: no statement in the source ever assigns it, and
`ingest_code_context` does not include it, so reads go through
`task.get('priority', 5)` (lines 103, 109). -/
structure Task where
  file_path : String
  code : String
  stage : PipelineStage
  metadata : List (String × String)
  attempts : Nat
  priority : Option Int
  context_report : Option String
  vuln_report : Option String
  optimizations : Option (List Optimization)
  final_suggestions : Option (List AdaptedSuggestion)
deriving DecidableEq

/-- `task.get('priority', 5)` (source lines 103 and 109). -/
def pyGetPriority (t : Task) : Int := t.priority.getD 5

/-- One telemetry record written by `db.record_interaction`
(lines 93-97 and 111-115). -/
structure TelemetryEvent where
  event_type : String
  suggestion_id : String
  context_embedding : List Nat
deriving DecidableEq

/-- The external collaborators, as the narrow fallible contracts the
pipeline consumes; `Except Unit` models a Python call that may raise. -/
structure Collab where
  analyze : String → Except Unit String
  scan_vulnerabilities : String → String → Except Unit String
  generate_optimizations : String → String → Option String → Except Unit (List Optimization)
  adapt_code_snippet : String → Except Unit String

/-- `task['attempts'] += 1`, the first statement of the `try` block
(line 61). -/
def bumped (t : Task) : Task := { t with attempts := t.attempts + 1 }

/-- Outcome of the `try` body of `_process_task` after the attempts
increment: the task advanced to the next stage (to be requeued),
completed at the terminal stage (with the `GENERATED` events emitted
there), or an exception was raised with the task in the given state. -/
inductive StageOutcome where
  | advanced (t : Task)
  | completed (t : Task) (events : List TelemetryEvent)
  | raised (t : Task)
deriving DecidableEq

/-- The `for opt in task['optimizations']` loop of the
`STYLE_ADAPTATION` branch (lines 84-87): adapt each suggested code
snippet, propagating the first raised exception. -/
def adaptAll (c : Collab) : List Optimization → Except Unit (List AdaptedSuggestion)
  | [] => .ok []
  | o :: os =>
    match c.adapt_code_snippet o.suggested_code with
    | .error e => .error e
    | .ok a =>
      match adaptAll c os with
      | .error e => .error e
      | .ok rest => .ok (⟨o, a⟩ :: rest)

/-- The stage dispatch of `_process_task` (lines 62-100), applied to
the task after its attempts increment.  A missing dict key
(`task['context_report']`, `task['optimizations']`,
`task['final_suggestions']`) is a `KeyError`, i.e. a raise caught by
the same `except` (lines 69-71, 76-79, 85, 92). -/
def runStage (c : Collab) (t : Task) : StageOutcome :=
  match t.stage with
  | .CONTEXT_ANALYSIS =>
    match c.analyze t.code with
    | .error _ => .raised t
    | .ok rep =>
      .advanced { t with context_report := some rep, stage := .VULNERABILITY_SCAN }
  | .VULNERABILITY_SCAN =>
    match t.context_report with
    | none => .raised t
    | some rep =>
      match c.scan_vulnerabilities t.code rep with
      | .error _ => .raised t
      | .ok v => .advanced { t with vuln_report := some v, stage := .OPTIMIZATION_GEN }
  | .OPTIMIZATION_GEN =>
    match t.context_report with
    | none => .raised t
    | some rep =>
      match c.generate_optimizations t.code rep t.vuln_report with
      | .error _ => .raised t
      | .ok opts =>
        .advanced { t with optimizations := some opts, stage := .STYLE_ADAPTATION }
  | .STYLE_ADAPTATION =>
    match t.optimizations with
    | none => .raised t
    | some opts =>
      match adaptAll c opts with
      | .error _ => .raised t
      | .ok adapted =>
        .advanced { t with final_suggestions := some adapted, stage := .TELEMETRY_HOOK }
  | .TELEMETRY_HOOK =>
    match t.final_suggestions with
    | none => .raised t
    | some sugs =>
      .completed t (sugs.map fun s =>
        ⟨"GENERATED", s.opt.id, s.opt.context_embedding.getD []⟩)

/-- Whether executing `t`'s current stage invokes
`refactor_engine.generate_optimizations` (line 76): argument
evaluation reads `task['context_report']` before the call, so a
missing report raises `KeyError` without invoking the collaborator. -/
def invokesOptGen (t : Task) : Bool :=
  t.stage = PipelineStage.OPTIMIZATION_GEN ∧ t.context_report.isSome

/-- State mutated by `_process_task`: the queue of pending
`(priority, task)` puts, the shared results list (`self.results`),
the telemetry records written through `self.db`, the tasks dropped
after exhausting retries, and a count of invocations of
`generate_optimizations`. -/
structure PipeState where
  task_queue : List (Int × Task)
  results : List Task
  db_events : List TelemetryEvent
  dropped : List Task
  optimization_gen_calls : Nat
deriving DecidableEq

/-- `_process_task` (lines 58-116): increment attempts, run the
stage; on non-terminal success requeue at
`max(0, task.get('priority', 5) - 1)` (line 103); at the terminal
stage record one `GENERATED` event per final suggestion and append
the task to `self.results` (lines 92-100); on an exception requeue
at `task.get('priority', 5)` when `attempts < 3` (lines 107-109),
otherwise record a `PIPELINE_ERROR` event with suggestion id
`ERR_<stage-name>` and drop the task (lines 110-116). -/
def process_task (c : Collab) (t : Task) (st : PipeState) : PipeState :=
  let t1 := bumped t
  let st1 := { st with optimization_gen_calls :=
      st.optimization_gen_calls + (if invokesOptGen t1 then 1 else 0) }
  match runStage c t1 with
  | .advanced t2 =>
    { st1 with task_queue := st1.task_queue ++ [(max 0 (pyGetPriority t2 - 1), t2)] }
  | .completed t2 evs =>
    { st1 with db_events := st1.db_events ++ evs, results := st1.results ++ [t2] }
  | .raised t2 =>
    if t2.attempts < 3 then
      { st1 with task_queue := st1.task_queue ++ [(pyGetPriority t2, t2)] }
    else
      { st1 with
          db_events := st1.db_events ++
            [⟨"PIPELINE_ERROR", "ERR_" ++ stageName t2.stage, []⟩],
          dropped := st1.dropped ++ [t2] }

/-- The task dict built by `ingest_code_context` (lines 38-44):
stage = `CONTEXT_ANALYSIS`, empty metadata, `attempts = 0`, and no
`'priority'` key (the priority argument goes only into the queue
tuple, line 46). -/
def ingestTask (file_path code : String) : Task :=
  { file_path := file_path
    code := code
    stage := .CONTEXT_ANALYSIS
    metadata := []
    attempts := 0
    priority := none
    context_report := none
    vuln_report := none
    optimizations := none
    final_suggestions := none }

/-- `ingest_code_context` (lines 36-46): put `(priority, task)` on
the queue. -/
def ingest_code_context (st : PipeState) (file_path code : String)
    (priority : Int) : PipeState :=
  { st with task_queue := st.task_queue ++ [(priority, ingestTask file_path code)] }

/-- The empty pipeline state (`__init__`, lines 26-34): empty queue,
empty `self.results`, no telemetry. -/
def initState : PipeState :=
  { task_queue := [], results := [], db_events := [], dropped := []
    optimization_gen_calls := 0 }

/-- A single worker's loop (`_worker_loop`, lines 48-56) run
sequentially to a fuel bound: dequeue the next pending task and
process it, until the queue is empty.  With a single ingested task
the queue never holds more than one entry, so list order coincides
with priority order. -/
def runWorker (c : Collab) : Nat → PipeState → PipeState
  | 0, st => st
  | fuel + 1, st =>
    match st.task_queue with
    | [] => st
    | (_, t) :: rest => runWorker c fuel (process_task c t { st with task_queue := rest })

/-- A deterministic stub collaborator set: the operation belonging to
a stage on which `fails` holds raises on every call; every other
operation returns a fixed deterministic value, with exactly one
optimization record produced. -/
def stubCollab (fails : PipelineStage → Bool) : Collab :=
  { analyze := fun _ =>
      if fails .CONTEXT_ANALYSIS then .error () else .ok "ctx-report"
    scan_vulnerabilities := fun _ _ =>
      if fails .VULNERABILITY_SCAN then .error () else .ok "vuln-report"
    generate_optimizations := fun _ _ _ =>
      if fails .OPTIMIZATION_GEN then .error ()
      else .ok [⟨"OPT1", "y = 2", some [1, 2], 7⟩]
    adapt_code_snippet := fun s =>
      if fails .STYLE_ADAPTATION then .error () else .ok s }

/-- The all-success stub collaborator set. -/
def okCollab : Collab := stubCollab fun _ => false

/-! ### The scheduler: `queue.PriorityQueue` over `heapq`

`self.task_queue` (line 31) is a `queue.PriorityQueue`, which stores
its items in a `heapq` list and orders them with the items' own `<`.
The items put are the bare tuples `(priority, task)` (lines 46, 103,
109); there is no sequence-number component.  Python tuple `<` is
lexicographic: unequal priorities decide; equal priorities fall
through to `task < task`, and `<` between two unequal dicts raises
`TypeError` (dict equality is elementwise and is checked first). -/

/-- A queue entry: the tuple `(priority, task)` as put at lines 46,
103 and 109. -/
abbrev Entry := Int × Task

/-- Python `<` on two `(priority, task)` tuples as evaluated inside
`heapq`: lexicographic on the tuple, where comparing two unequal
task dicts raises `TypeError`. -/
def entryLt (a b : Entry) : Except String Bool :=
  if a.1 = b.1 then
    if a.2 = b.2 then .ok false
    else .error "TypeError: unorderable dict instances"
  else .ok (decide (a.1 < b.1))

/-- CPython `heapq._siftdown(heap, startpos, pos)` with
`newitem = heap[pos]`: bubble the new item up while it compares
`<` its parent, propagating a raised comparison error. -/
def siftdownLoop (startpos : Nat) (newitem : Entry) (heap : List Entry)
    (pos : Nat) : Except String (List Entry) :=
  if h : startpos < pos then
    let parentpos := (pos - 1) / 2
    let parent := heap.getD parentpos newitem
    match entryLt newitem parent with
    | .error e => .error e
    | .ok true => siftdownLoop startpos newitem (heap.set pos parent) parentpos
    | .ok false => .ok (heap.set pos newitem)
  else .ok (heap.set pos newitem)
termination_by pos
decreasing_by simp_wf; omega

/-- CPython `heapq.heappush`: append the item and sift it down from
the last position. -/
def heappush (heap : List Entry) (item : Entry) : Except String (List Entry) :=
  siftdownLoop 0 item (heap ++ [item]) heap.length

/-- CPython `heapq._siftup(heap, pos)` with `newitem = heap[pos]`:
bubble the hole down to a leaf, choosing the smaller child (a child
comparison may raise), then sift the new item down from the leaf. -/
def siftupLoop (endpos : Nat) (newitem : Entry) (startpos : Nat)
    (heap : List Entry) (pos : Nat) : Except String (List Entry) :=
  if h1 : 2 * pos + 1 < endpos then
    if h2 : 2 * pos + 2 < endpos then
      match entryLt (heap.getD (2 * pos + 1) newitem) (heap.getD (2 * pos + 2) newitem) with
      | .error e => .error e
      | .ok true =>
        siftupLoop endpos newitem startpos
          (heap.set pos (heap.getD (2 * pos + 1) newitem)) (2 * pos + 1)
      | .ok false =>
        siftupLoop endpos newitem startpos
          (heap.set pos (heap.getD (2 * pos + 2) newitem)) (2 * pos + 2)
    else
      siftupLoop endpos newitem startpos
        (heap.set pos (heap.getD (2 * pos + 1) newitem)) (2 * pos + 1)
  else
    siftdownLoop startpos newitem (heap.set pos newitem) pos
termination_by endpos - pos
decreasing_by all_goals (simp_wf; omega)

/-- CPython `heapq.heappop`: remove the last element; if the heap is
still non-empty, take the root as the return item, put the last
element at the root and sift it up. -/
def heappop (heap : List Entry) : Except String (Entry × List Entry) :=
  match heap.getLast? with
  | none => .error "IndexError: index out of range"
  | some lastelt =>
    let heap1 := heap.dropLast
    if heap1.length = 0 then .ok (lastelt, heap1)
    else
      let returnitem := heap1.getD 0 lastelt
      match siftupLoop heap1.length lastelt 0 (heap1.set 0 lastelt) 0 with
      | .error e => .error e
      | .ok h2 => .ok (returnitem, h2)

/-- Scenario C against the scheduler: put two tasks at the given
priorities on an empty queue, then get twice, returning the two
dequeued tasks (any raised comparison error propagates). -/
def enq2deq2 (p1 p2 : Int) (t1 t2 : Task) : Except String (Task × Task) :=
  match heappush [] (p1, t1) with
  | .error e => .error e
  | .ok h1 =>
    match heappush h1 (p2, t2) with
    | .error e => .error e
    | .ok h2 =>
      match heappop h2 with
      | .error e => .error e
      | .ok (e1, h3) =>
        match heappop h3 with
        | .error e => .error e
        | .ok (e2, _) => .ok (e1.2, e2.2)

/-! ### Concrete runs and tasks used by counterexamples and witnesses -/

/-- Spec Scenario B: one task ingested, with the
optimization-generation collaborator raising on every call and every
other collaborator a deterministic stub; run to quiescence. -/
def scenarioBRun (fp code : String) (p : Int) : PipeState :=
  runWorker (stubCollab fun s => s == PipelineStage.OPTIMIZATION_GEN) 10
    (ingest_code_context initState fp code p)

/-- The projection of a stage outcome onto its task. -/
def StageOutcome.task : StageOutcome → Task
  | .advanced t => t
  | .completed t _ => t
  | .raised t => t

/-- A freshly ingested sample task. -/
def wTask : Task := ingestTask "w.py" "x = 1"

/-- The task `wTask` after one successful `CONTEXT_ANALYSIS`
execution by the stub collaborators. -/
def wAdv : Task :=
  { wTask with attempts := 1, context_report := some "ctx-report"
               stage := PipelineStage.VULNERABILITY_SCAN }

/-- A sample task already at the terminal stage with one final
suggestion. -/
def wTerm : Task :=
  { wTask with stage := PipelineStage.TELEMETRY_HOOK
               final_suggestions := some [⟨⟨"OPT1", "y = 2", some [1, 2], 7⟩, "y = 2"⟩] }

/-- Stub collaborators whose context-analysis operation raises on
every call. -/
def failCACollab : Collab := stubCollab fun s => s == PipelineStage.CONTEXT_ANALYSIS

/-- The sample task with two prior execution attempts recorded. -/
def wT2 : Task := { wTask with attempts := 2 }

/-- The sample task with three prior execution attempts recorded. -/
def wT3 : Task := { wTask with attempts := 3 }

/-! ### Helper lemmas about one executor step -/

/-- A successful non-terminal stage execution leaves `attempts` and
the (absent) `priority` key untouched, writes the next enumerated
stage, and cannot happen at the terminal stage. -/
theorem runStage_advanced (c : Collab) (t t2 : Task)
    (h : runStage c t = .advanced t2) :
    t2.attempts = t.attempts ∧ t2.priority = t.priority ∧
    t2.stage = nextStage t.stage ∧ t.stage ≠ PipelineStage.TELEMETRY_HOOK := by
  obtain ⟨fp, code, stage, md, att, pr, cr, vr, opts, fs⟩ := t
  cases stage <;>
    simp only [runStage] at h <;>
    (try split at h) <;> (try split at h) <;>
    simp_all [nextStage] <;>
    (subst h; exact ⟨rfl, rfl, rfl⟩)

/-- A raised stage execution leaves the task exactly as it was (all
in-place mutations happen only after the collaborator call returns). -/
theorem runStage_raised (c : Collab) (t t2 : Task)
    (h : runStage c t = .raised t2) : t2 = t := by
  obtain ⟨fp, code, stage, md, att, pr, cr, vr, opts, fs⟩ := t
  cases stage <;>
    simp only [runStage] at h <;>
    (try split at h) <;> (try split at h) <;>
    simp_all

/-- A completed execution happens only at the terminal stage and
leaves the task unchanged. -/
theorem runStage_completed (c : Collab) (t t2 : Task)
    (evs : List TelemetryEvent) (h : runStage c t = .completed t2 evs) :
    t2 = t ∧ t.stage = PipelineStage.TELEMETRY_HOOK := by
  obtain ⟨fp, code, stage, md, att, pr, cr, vr, opts, fs⟩ := t
  cases stage <;>
    simp only [runStage] at h <;>
    (try split at h) <;> (try split at h) <;>
    simp_all

/-- Record-update arithmetic for `bumped`. -/
theorem bumped_fields (t : Task) :
    (bumped t).attempts = t.attempts + 1 ∧ (bumped t).priority = t.priority ∧
    (bumped t).stage = t.stage := by
  constructor
  · rfl
  · constructor <;> rfl

/-! ### Claim C1 -/

/-- Claim C1, counterexample: process one freshly ingested task with
all-success collaborators; the task requeued for the next stage
carries `attempts = 1`, not `attempts = 0`, so the executor does not
reset the counter before requeueing. -/
theorem C1_counterexample :
    ¬ ∀ e ∈ (runWorker okCollab 1
        (ingest_code_context initState "test.py" "x = 1" 3)).task_queue,
      e.2.attempts = 0 := by
  decide

/-- Claim C1 (corrected): when a stage handler succeeds at a
non-terminal stage, the executor requeues the task at the next stage
with `attempts` equal to the dequeued task's `attempts + 1`; no
statement of `_process_task` resets it to 0, so `attempts` counts
execution attempts cumulatively across all stages. -/
theorem C1_attempts_carried_not_reset (c : Collab) (t t2 : Task) (st : PipeState)
    (h : runStage c (bumped t) = .advanced t2) :
    (process_task c t st).task_queue =
      st.task_queue ++ [(max 0 (pyGetPriority t - 1), t2)] ∧
    t2.attempts = t.attempts + 1 := by
  obtain ⟨ha, hpr, -, -⟩ := runStage_advanced c (bumped t) t2 h
  constructor
  · simp only [process_task, h]
    have hpp : pyGetPriority t2 = pyGetPriority t := by
      simp [pyGetPriority, hpr, (bumped_fields t).2.1]
    rw [hpp]
  · rw [ha, (bumped_fields t).1]

/-- Witness for C1: the corrected statement evaluated on the sample
task with the stub collaborators. -/
theorem C1_attempts_carried_not_reset_witness :
    (process_task okCollab wTask initState).task_queue =
      initState.task_queue ++ [(max 0 (pyGetPriority wTask - 1), wAdv)] ∧
    wAdv.attempts = wTask.attempts + 1 :=
  C1_attempts_carried_not_reset okCollab wTask wAdv initState (by decide)

/-! ### Claim C2 -/

/-- Claim C2, counterexample: under Scenario B (the
optimization-generation collaborator raises on every call) the
collaborator is invoked exactly once, not 3 times: `attempts`, never
reset on stage advance, is already 3 when the task first reaches
`OPTIMIZATION_GEN`, so its first failure there drops the task. -/
theorem C2_counterexample :
    (scenarioBRun "test.py" "x = 1" 5).optimization_gen_calls ≠ 3 := by
  decide

/-- Claim C2 (corrected): for any ingested task, when the
optimization-generation collaborator raises on every call the task
never reaches the Result Sink, exactly one `PIPELINE_ERROR` event
with suggestion id `ERR_OPTIMIZATION_GEN` is recorded, the queue is
drained, and the collaborator is invoked exactly once. -/
theorem C2_optgen_invoked_once (fp code : String) (p : Int) :
    (scenarioBRun fp code p).results = [] ∧
    (scenarioBRun fp code p).db_events =
      [⟨"PIPELINE_ERROR", "ERR_OPTIMIZATION_GEN", []⟩] ∧
    (scenarioBRun fp code p).optimization_gen_calls = 1 ∧
    (scenarioBRun fp code p).task_queue = [] :=
  ⟨rfl, rfl, rfl, rfl⟩

/-! ### Claim C3 -/

/-- Claim C3, counterexample: a task ingested at priority 0 is, after
its first successful stage, requeued at priority 4, not at
`max(0, 0 - 1) = 0`: the requeue priority does not depend on the
priority the task was last enqueued with. -/
theorem C3_counterexample :
    ((runWorker okCollab 1
        (ingest_code_context initState "a.py" "x = 1" 0)).task_queue.map Prod.fst) = [4] ∧
    (4 : Int) ≠ max 0 (0 - 1) := by
  decide

/-- Claim C3 (corrected): on every successful non-terminal stage
execution the task is requeued at priority
`max(0, 5 - 1) = 4`, where 5 is the default of
`task.get('priority', 5)`: the task record never carries a
`'priority'` key, so the priority the task was most recently
enqueued with plays no part. -/
theorem C3_requeue_priority_is_default_minus_one (c : Collab) (t t2 : Task)
    (st : PipeState) (hp : t.priority = none)
    (h : runStage c (bumped t) = .advanced t2) :
    (process_task c t st).task_queue = st.task_queue ++ [(4, t2)] := by
  obtain ⟨-, hpr, -, -⟩ := runStage_advanced c (bumped t) t2 h
  simp only [process_task, h]
  have hpp : pyGetPriority t2 = 5 := by
    simp [pyGetPriority, hpr, (bumped_fields t).2.1, hp]
  rw [hpp]
  norm_num

/-- Witness for C3: the corrected statement evaluated on the sample
task with the stub collaborators. -/
theorem C3_requeue_priority_is_default_minus_one_witness :
    (process_task okCollab wTask initState).task_queue =
      initState.task_queue ++ [(4, wAdv)] :=
  C3_requeue_priority_is_default_minus_one okCollab wTask wAdv initState rfl (by decide)

/-! ### Claim C4 -/

/-- Pushing onto an empty heap performs no comparison. -/
theorem heappush_nil (e : Entry) : heappush [] e = Except.ok [e] := by
  unfold heappush siftdownLoop
  simp

/-- Pushing a second, different task at an equal priority compares
the two `(priority, task)` tuples, falls through the equal
priorities to the task dicts, and raises. -/
theorem heappush_equal_priority_raises (p : Int) (t1 t2 : Task) (hne : t2 ≠ t1) :
    heappush [(p, t1)] (p, t2) =
      Except.error "TypeError: unorderable dict instances" := by
  unfold heappush siftdownLoop
  simp [entryLt, hne]

/-- Claim C4, counterexample: enqueue two (distinct) freshly ingested
tasks at equal priority 5 and dequeue twice; the run does not return
the tasks in insertion order — the second enqueue already raises
`TypeError`, because the queue stores bare `(priority, task)` tuples
with no sequence number and equal priorities fall through to
comparing the task dicts. -/
theorem C4_counterexample :
    enq2deq2 5 5 (ingestTask "a.py" "x = 1") (ingestTask "b.py" "x = 2") ≠
      Except.ok (ingestTask "a.py" "x = 1", ingestTask "b.py" "x = 2") := by
  have hne : ingestTask "b.py" "x = 2" ≠ ingestTask "a.py" "x = 1" := by decide
  simp [enq2deq2, heappush_nil, heappush_equal_priority_raises 5 _ _ hne]

/-- Claim C4 (corrected): the scheduler assigns no sequence number at
enqueue time; entries are bare `(priority, task)` tuples, so
enqueueing a second, distinct task at an equal priority raises a
comparison `TypeError` from comparing the task payloads, and
equal-priority FIFO dequeue order is not provided. -/
theorem C4_equal_priority_enqueue_raises (p : Int) (t1 t2 : Task) (hne : t1 ≠ t2) :
    (heappush [] (p, t1)).bind (fun h1 => heappush h1 (p, t2)) =
      Except.error "TypeError: unorderable dict instances" := by
  rw [heappush_nil]
  exact heappush_equal_priority_raises p t1 t2 (Ne.symm hne)

/-- Witness for C4: the corrected statement evaluated on two concrete
ingested tasks at priority 5. -/
theorem C4_equal_priority_enqueue_raises_witness :
    (heappush [] ((5 : Int), ingestTask "a.py" "x = 1")).bind
        (fun h1 => heappush h1 ((5 : Int), ingestTask "b.py" "x = 2")) =
      Except.error "TypeError: unorderable dict instances" :=
  C4_equal_priority_enqueue_raises 5 (ingestTask "a.py" "x = 1")
    (ingestTask "b.py" "x = 2") (by decide)

/-! ### Claim C5 -/

/-- Claim C5, counterexample: a task ingested at priority 3 whose
first stage handler fails is requeued for retry at priority 5, not
at the priority 3 it was dequeued with. -/
theorem C5_counterexample :
    ((runWorker failCACollab 1
        (ingest_code_context initState "a.py" "x = 1" 3)).task_queue.map Prod.fst) = [5] ∧
    (5 : Int) ≠ 3 := by
  decide

/-- Claim C5 (corrected): when a stage handler fails with
`attempts < 3` the task is requeued at the same stage with its
attempts counter incremented, but at priority 5 — the default of
`task.get('priority', 5)` (the task record carries no priority key)
— not at the priority it was dequeued with. -/
theorem C5_retry_same_stage_at_default_priority (c : Collab) (t t2 : Task)
    (st : PipeState) (hp : t.priority = none)
    (h : runStage c (bumped t) = .raised t2) (hatt : t.attempts + 1 < 3) :
    (process_task c t st).task_queue = st.task_queue ++ [(5, t2)] ∧
    t2.stage = t.stage ∧ t2.attempts = t.attempts + 1 := by
  have he := runStage_raised c (bumped t) t2 h
  subst he
  refine ⟨?_, (bumped_fields t).2.2, (bumped_fields t).1⟩
  simp only [process_task, h]
  have hlt : (bumped t).attempts < 3 := by
    rw [(bumped_fields t).1]; exact hatt
  rw [if_pos hlt]
  have hpp : pyGetPriority (bumped t) = 5 := by
    simp [pyGetPriority, (bumped_fields t).2.1, hp]
  rw [hpp]

/-- Witness for C5: the corrected statement evaluated on the sample
task with the failing context-analysis stub. -/
theorem C5_retry_same_stage_at_default_priority_witness :
    (process_task failCACollab wTask initState).task_queue =
      initState.task_queue ++ [(5, bumped wTask)] ∧
    (bumped wTask).stage = wTask.stage ∧
    (bumped wTask).attempts = wTask.attempts + 1 :=
  C5_retry_same_stage_at_default_priority failCACollab wTask (bumped wTask)
    initState rfl (by decide) (by decide)

/-! ### Claim C6 -/

/-- Claim C6, counterexample: with the style-adaptation collaborator
raising on every call, the ingested task passes three stages
successfully (`attempts` reaching 3, never reset), fails once at
`STYLE_ADAPTATION`, and is dropped with `attempts = 4`. -/
theorem C6_counterexample :
    ((runWorker (stubCollab fun s => s == PipelineStage.STYLE_ADAPTATION) 10
        (ingest_code_context initState "a.py" "x = 1" 5)).dropped.map Task.attempts) = [4] ∧
    (4 : Nat) ≠ 3 := by
  decide

/-- Claim C6 (corrected): at the moment a task is dropped its
`attempts` counter is at least 3; it can strictly exceed 3 because
`attempts` is never reset when the stage advances. -/
theorem C6_drop_attempts_at_least_three (c : Collab) (t : Task) (st : PipeState)
    (d : Task) (h : (process_task c t st).dropped = st.dropped ++ [d]) :
    3 ≤ d.attempts := by
  rcases hr : runStage c (bumped t) with t2 | ⟨t2, evs⟩ | t2 <;>
    simp only [process_task, hr] at h
  · simp at h
  · simp at h
  · by_cases hlt : t2.attempts < 3
    · rw [if_pos hlt] at h
      simp at h
    · rw [if_neg hlt] at h
      simp at h
      subst h
      omega

/-- Witness for C6: the corrected statement evaluated on a drop: the
sample task with two recorded attempts failing its stage a third
time. -/
theorem C6_drop_attempts_at_least_three_witness : 3 ≤ wT3.attempts :=
  C6_drop_attempts_at_least_three failCACollab wT2 initState wT3 (by decide)

/-! ### Claim C7 -/

/-- Claim C7, counterexample: a task ingested at priority 3 is, after
its first successful stage, requeued at priority 4 — a larger
number than the 3 of its previous enqueue, so the sequence of
enqueue priorities is not non-increasing. -/
theorem C7_counterexample :
    ((runWorker okCollab 1
        (ingest_code_context initState "a.py" "x = 1" 3)).task_queue.map Prod.fst) = [4] ∧
    ¬ ((4 : Int) ≤ 3) := by
  decide

/-- Claim C7 (corrected): every requeue performed by the executor
carries a non-negative priority, namely 4 after a successful advance
and 5 on a retry (both derived from the dict default 5); but the
priority sequence of a task's enqueues is not non-increasing — a
task ingested at a priority below 4 is next enqueued at a larger
number — and the ingestion priority itself is enqueued unclamped. -/
theorem C7_requeue_priority_four_or_five (c : Collab) (t t2 : Task) (st : PipeState)
    (p : Int) (hp : t.priority = none)
    (h : (process_task c t st).task_queue = st.task_queue ++ [(p, t2)]) :
    0 ≤ p ∧ (p = 4 ∨ p = 5) := by
  rcases hr : runStage c (bumped t) with t2' | ⟨t2', evs⟩ | t2' <;>
    simp only [process_task, hr] at h
  · obtain ⟨-, hpr, -, -⟩ := runStage_advanced c (bumped t) t2' hr
    have hpp : pyGetPriority t2' = 5 := by
      simp [pyGetPriority, hpr, (bumped_fields t).2.1, hp]
    rw [hpp] at h
    simp at h
    obtain ⟨h4, -⟩ := h
    constructor
    · omega
    · left; omega
  · simp at h
  · by_cases hlt : t2'.attempts < 3
    · rw [if_pos hlt] at h
      have he := runStage_raised c (bumped t) t2' hr
      subst he
      have hpp : pyGetPriority (bumped t) = 5 := by
        simp [pyGetPriority, (bumped_fields t).2.1, hp]
      rw [hpp] at h
      simp at h
      obtain ⟨h5, -⟩ := h
      constructor
      · omega
      · right; omega
    · rw [if_neg hlt] at h
      simp at h

/-- Witness for C7: the corrected statement evaluated on the sample
task requeued after its first successful stage. -/
theorem C7_requeue_priority_four_or_five_witness :
    (0 : Int) ≤ 4 ∧ ((4 : Int) = 4 ∨ (4 : Int) = 5) :=
  C7_requeue_priority_four_or_five okCollab wTask wAdv initState 4 rfl (by decide)

/-! ### Claim C8 -/

/-- The enumerated values 1..5 increase by one along `nextStage` away
from the terminal stage. -/
theorem stageValue_nextStage (s : PipelineStage)
    (hs : s ≠ PipelineStage.TELEMETRY_HOOK) :
    stageValue (nextStage s) = stageValue s + 1 := by
  cases s <;> simp_all [stageValue, nextStage]

/-- Claim C8 (confirmed): every task requeued by an executor step
keeps its stage (retried failure) or carries the next stage in the
enumerated order `CONTEXT_ANALYSIS, VULNERABILITY_SCAN,
OPTIMIZATION_GEN, STYLE_ADAPTATION, TELEMETRY_HOOK`; the stage value
never moves to an earlier one. -/
theorem C8_stage_never_regresses (c : Collab) (t t2 : Task) (st : PipeState)
    (p : Int) (h : (process_task c t st).task_queue = st.task_queue ++ [(p, t2)]) :
    t2.stage = t.stage ∨ stageValue t2.stage = stageValue t.stage + 1 := by
  rcases hr : runStage c (bumped t) with t2' | ⟨t2', evs⟩ | t2' <;>
    simp only [process_task, hr] at h
  · obtain ⟨-, -, hst, hterm⟩ := runStage_advanced c (bumped t) t2' hr
    simp at h
    obtain ⟨-, ht2⟩ := h
    subst ht2
    right
    rw [hst]
    exact stageValue_nextStage t.stage hterm
  · simp at h
  · by_cases hlt : t2'.attempts < 3
    · rw [if_pos hlt] at h
      have he := runStage_raised c (bumped t) t2' hr
      subst he
      simp at h
      obtain ⟨-, ht2⟩ := h
      subst ht2
      left
      exact (bumped_fields t).2.2
    · rw [if_neg hlt] at h
      simp at h

/-- Witness for C8: the theorem evaluated on the sample task advanced
out of its first stage. -/
theorem C8_stage_never_regresses_witness :
    wAdv.stage = wTask.stage ∨ stageValue wAdv.stage = stageValue wTask.stage + 1 :=
  C8_stage_never_regresses okCollab wTask wAdv initState 4 (by decide)

/-! ### Claim C9 -/

/-- Claim C9 (confirmed): when the terminal-stage
(`TELEMETRY_HOOK`) execution of a task succeeds, the executor
appends the task to the Result Sink exactly once and returns without
putting anything back on the queue. -/
theorem C9_terminal_commit_once_no_requeue (c : Collab) (t t2 : Task)
    (st : PipeState) (evs : List TelemetryEvent)
    (hstage : t.stage = PipelineStage.TELEMETRY_HOOK)
    (h : runStage c (bumped t) = .completed t2 evs) :
    (process_task c t st).results = st.results ++ [t2] ∧
    (process_task c t st).task_queue = st.task_queue := by
  constructor <;> simp only [process_task, h]

/-- Witness for C9: the theorem evaluated on the sample terminal
task, whose single final suggestion is committed once. -/
theorem C9_terminal_commit_once_no_requeue_witness :
    (process_task okCollab wTerm initState).results =
      initState.results ++ [bumped wTerm] ∧
    (process_task okCollab wTerm initState).task_queue = initState.task_queue :=
  C9_terminal_commit_once_no_requeue okCollab wTerm (bumped wTerm) initState
    [⟨"GENERATED", "OPT1", [1, 2]⟩] rfl (by decide)

end UmiGold
